import Mathlib

/-
Shallow embedding of the MuseWave media-generation pipeline
(src/backend-complete/scripts/generate_media.py, class MediaGenerator).

External process behaviour (whether a binary is found, whether it exits
zero, and what output file it leaves on disk) and ffprobe results are
supplied by an explicit environment `Env`; the filesystem is an
association list from path to byte size, where later writes shadow
earlier entries.  Python exceptions are modelled as values of `Err`;
a method that may raise returns the (mutated) filesystem together with
`Option Err` (`some e` = the exception `e` was raised), so that file
writes performed before an exception persist, exactly as on a real disk.
-/

-- Configuration constants (generate_media.py, lines 21-26).
def DEFAULT_SAMPLE_RATE : Nat := 44100

def DEFAULT_CHANNELS : Nat := 2

def MIN_FILE_SIZE : Nat := 10000

def VIDEO_WIDTH : Nat := 1280

def VIDEO_HEIGHT : Nat := 720

def VIDEO_FPS : Nat := 30

/-- The filesystem: existing files with their byte sizes.  A later
`write` conses a new entry, shadowing any older entry for the same path. -/
abbrev FS := List (String × Nat)

/-- Byte size of a file, `none` when the file does not exist
(`os.path.exists` / `os.path.getsize`). -/
def FS.size? (fs : FS) (p : String) : Option Nat :=
  List.lookup p fs

/-- `os.path.exists` on the modelled filesystem. -/
def FS.existsFile (fs : FS) (p : String) : Bool :=
  (FS.size? fs p).isSome

/-- A program writing `n` bytes to path `p`. -/
def FS.write (fs : FS) (p : String) (n : Nat) : FS :=
  (p, n) :: fs

/-- The Python exceptions raised by generate_media.py. -/
inductive Err where
  | fileNotFound : String → Err
  | valueError : String → Err
  | runtimeError : String → Err
  | importError : String → Err
  deriving DecidableEq, Repr

/-- Fixed per-job artifact paths (`MediaGenerator.__init__`, the
`self.paths` dictionary). -/
structure Paths where
  midi : String
  wav_midi : String
  wav_texture : String
  wav_vocals : String
  wav_mix : String
  mp4_video : String
  metadata : String
  deriving DecidableEq, Repr

/-- `os.path.join(output_dir, name)` for each fixed artifact name. -/
def mkPaths (output_dir : String) : Paths :=
  { midi := output_dir ++ "/melody.mid"
    wav_midi := output_dir ++ "/melody.wav"
    wav_texture := output_dir ++ "/texture.wav"
    wav_vocals := output_dir ++ "/vocals.wav"
    wav_mix := output_dir ++ "/mix.wav"
    mp4_video := output_dir ++ "/final.mp4"
    metadata := output_dir ++ "/metadata.json" }

/-- Behaviour of one external process invocation, supplied by the
environment: whether the binary exists on PATH (`found = false` makes
`subprocess.run` raise `FileNotFoundError`), whether the process exits
zero, and the size of the output file it leaves on disk — `written` may
be `some n` even when `exitOk = false` (a partially written output). -/
structure ToolRun where
  found : Bool
  exitOk : Bool
  written : Option Nat
  deriving DecidableEq, Repr

/-- `MediaGenerator.validate_file` (lines 79-89): existence is checked
first (`FileNotFoundError`), then the minimum-size threshold
(`ValueError`); on success the method returns `True`. -/
def validate_file (fs : FS) (filepath : String) (description : String) :
    Except Err Bool :=
  match FS.size? fs filepath with
  | none =>
      .error (.fileNotFound (description ++ " not created: " ++ filepath))
  | some size =>
      if size < MIN_FILE_SIZE then
        .error (.valueError (description ++ " is too small (" ++
          toString size ++ " bytes): " ++ filepath))
      else
        .ok true

/-- `MediaGenerator.run_command` (lines 47-77): execute the external
process; a missing binary raises `FileNotFoundError` (uncaught there),
non-zero exit raises `RuntimeError`, and on success the output file, if
one was named, is validated — a `validate_file` exception propagates.
The returned filesystem keeps whatever the process wrote even when an
exception is raised. -/
def run_command (fs : FS) (run : ToolRun) (output_file : Option String)
    (description : String) : FS × Option Err :=
  if run.found then
    let fs' := match output_file, run.written with
      | some f, some n => FS.write fs f n
      | _, _ => fs
    if run.exitOk then
      match output_file with
      | some f =>
          (fs', match validate_file fs' f description with
            | .ok _ => none
            | .error e => some e)
      | none => (fs', none)
    else
      (fs', some (.runtimeError ("Failed to " ++ description)))
  else
    (fs, some (.fileNotFound description))

/-- One decoded ffprobe stream entry (the fields generate_media.py reads;
print-only fields such as width/height/frame rate are omitted because
they never influence control flow). -/
structure FFStream where
  codec_type : String
  sample_rate : Nat
  channels : Nat
  codec_name : String
  deriving DecidableEq, Repr

/-- Outcome of an `ffprobe -show_streams` invocation: whether ffprobe
exited zero (`check=True` raises otherwise) and the decoded streams. -/
structure ProbeResult where
  exitOk : Bool
  streams : List FFStream
  deriving DecidableEq, Repr

/-- The environment: behaviour of every external tool the pipeline
invokes, in pipeline order. -/
structure Env where
  ffmpeg_ok : Bool
  ffprobe_ok : Bool
  fluidsynth_ok : Bool
  python3_ok : Bool
  magenta_run : ToolRun
  midiutil_available : Bool
  midiutil_write : Nat
  fluidsynth_run : ToolRun
  riffusion_run : ToolRun
  texture_fallback_run : ToolRun
  tts_run : ToolRun
  mix_run : ToolRun
  video_run : ToolRun
  probe_mix : ProbeResult
  probe_video : ProbeResult
  deriving DecidableEq, Repr

/-- Whether `[tool, "--version"]` runs successfully for each of the four
probed tools (`check_dependencies`, lines 101-110). -/
def Env.toolOk (env : Env) (tool : String) : Bool :=
  if tool = "ffmpeg" then env.ffmpeg_ok
  else if tool = "ffprobe" then env.ffprobe_ok
  else if tool = "fluidsynth" then env.fluidsynth_ok
  else if tool = "python3" then env.python3_ok
  else false

/-- The `dependencies` dict of `check_dependencies` (lines 93-98),
in insertion order. -/
def dependencies : List (String × String) :=
  [("ffmpeg", "brew install ffmpeg"),
   ("ffprobe", "brew install ffmpeg"),
   ("fluidsynth", "brew install fluidsynth"),
   ("python3", "Already installed")]

/-- `MediaGenerator.check_dependencies` (lines 91-115): probe each tool
with `--version`, collect the missing ones, raise `RuntimeError` when any
are missing, return `True` otherwise. -/
def check_dependencies (env : Env) : Option Err :=
  let missing := (dependencies.filter (fun d => !env.toolOk d.1)).map Prod.fst
  if missing.isEmpty then none
  else some (.runtimeError ("Missing dependencies: " ++
    String.intercalate ", " missing))

/-- `MediaGenerator.generate_fallback_midi` (lines 137-157): if the
`midiutil` package is importable, write the C-major-scale MIDI file
(whose on-disk size the environment supplies as `midiutil_write`) and
validate it — a validation exception propagates; if the import fails,
the `ImportError` is re-raised. -/
def generate_fallback_midi (env : Env) (fs : FS) (paths : Paths) :
    FS × Option Err :=
  if env.midiutil_available then
    let fs' := FS.write fs paths.midi env.midiutil_write
    (fs', match validate_file fs' paths.midi "Fallback MIDI" with
      | .ok _ => none
      | .error e => some e)
  else
    (fs, some (.importError
      "MIDIUtil not installed. Install with: pip install MIDIUtil"))

/-- `MediaGenerator.generate_melody` (lines 117-135): try Magenta
through `run_command`; any exception falls back to
`generate_fallback_midi`. -/
def generate_melody (env : Env) (fs : FS) (paths : Paths) :
    FS × Option Err :=
  match run_command fs env.magenta_run (some paths.midi)
      "Generate melody with Magenta" with
  | (fs', none) => (fs', none)
  | (fs', some _) => generate_fallback_midi env fs' paths

/-- The fixed instrument-bank resource of `midi_to_wav` (line 161). -/
def soundfont : String := "/usr/local/share/soundfonts/GeneralUser.sf2"

/-- `MediaGenerator.midi_to_wav` (lines 159-179): raise
`FileNotFoundError` when the soundfont is missing, otherwise run
fluidsynth on the melody MIDI. -/
def midi_to_wav (env : Env) (fs : FS) (paths : Paths) : FS × Option Err :=
  if FS.existsFile fs soundfont then
    run_command fs env.fluidsynth_run (some paths.wav_midi)
      "Convert MIDI to WAV"
  else
    (fs, some (.fileNotFound ("Soundfont missing: " ++ soundfont)))

/-- `MediaGenerator.generate_fallback_texture` (lines 197-215): the
ffmpeg sine-pad synthesis. -/
def generate_fallback_texture (env : Env) (fs : FS) (paths : Paths) :
    FS × Option Err :=
  run_command fs env.texture_fallback_run (some paths.wav_texture)
    "Generate fallback texture"

/-- `MediaGenerator.generate_texture` (lines 181-195): try Riffusion;
any exception falls back to the ffmpeg texture.  The prompt only shapes
the external command line, never the control flow. -/
def generate_texture (env : Env) (fs : FS) (paths : Paths)
    (_prompt : String) : FS × Option Err :=
  match run_command fs env.riffusion_run (some paths.wav_texture)
      "Generate texture with Riffusion" with
  | (fs', none) => (fs', none)
  | (fs', some _) => generate_fallback_texture env fs' paths

/-- Python's `str.strip()`: drop leading and trailing whitespace
characters, written over the underlying character list. -/
def strip (s : String) : String :=
  String.mk
    (((s.data.dropWhile Char.isWhitespace).reverse.dropWhile
      Char.isWhitespace).reverse)

/-- `MediaGenerator.generate_vocals` (lines 217-237): empty or
whitespace-only lyrics (`not lyrics or not lyrics.strip()`) return
`False` at once; otherwise the TTS tool is run and any exception is
swallowed, returning `False` ("Continuing without vocals").  The method
never raises. -/
def generate_vocals (env : Env) (fs : FS) (paths : Paths)
    (lyrics : String) (_language : String) : FS × Bool :=
  if lyrics = "" ∨ strip lyrics = "" then
    (fs, false)
  else
    match run_command fs env.tts_run (some paths.wav_vocals)
        "Generate vocals with TTS" with
    | (fs', none) => (fs', true)
    | (fs', some _) => (fs', false)

/-- The `input_files` list collected by `mix_audio` (lines 242-258):
texture, then melody render, then optional vocals — each included iff
its file exists on disk at mix time. -/
def mix_input_files (fs : FS) (paths : Paths) : List String :=
  (if FS.existsFile fs paths.wav_texture then [paths.wav_texture] else []) ++
  (if FS.existsFile fs paths.wav_midi then [paths.wav_midi] else []) ++
  (if FS.existsFile fs paths.wav_vocals then [paths.wav_vocals] else [])

/-- The `filter_complex` string of `mix_audio` (line 269), whose `amix`
graph arity is `num_inputs`. -/
def mix_filter_complex (num_inputs : Nat) : String :=
  "amix=inputs=" ++ toString num_inputs ++
    ":normalize=0,alimiter,aresample=" ++ toString DEFAULT_SAMPLE_RATE ++
    ",volume=1.2"

/-- The ffmpeg command `mix_audio` builds (lines 268-278): one `-i` pair
per collected input file, then the filter graph sized to the input
count. -/
def mix_cmd (fs : FS) (paths : Paths) : List String :=
  let input_files := mix_input_files fs paths
  let inputs := (input_files.map (fun f => ["-i", f])).flatten
  ["ffmpeg", "-y"] ++ inputs ++
    ["-filter_complex", mix_filter_complex input_files.length,
     "-ar", toString DEFAULT_SAMPLE_RATE,
     "-ac", toString DEFAULT_CHANNELS,
     paths.wav_mix]

/-- `MediaGenerator.verify_audio_format` (lines 285-307): ffprobe the
file (`check=True` — a probe failure raises), raise `ValueError` when no
streams decode, otherwise read the first stream and record a warning for
each sample-rate / channel-count mismatch; the warnings are returned in
place of the printed text and the method succeeds regardless.
`format_warnings` collects the warning prints of lines 301-305. -/
def format_warnings (stream : FFStream) : List String :=
  (if stream.sample_rate ≠ DEFAULT_SAMPLE_RATE then
    ["Warning: Sample rate is " ++ toString stream.sample_rate ++
      ", expected " ++ toString DEFAULT_SAMPLE_RATE]
  else []) ++
  (if stream.channels ≠ DEFAULT_CHANNELS then
    ["Warning: Channels is " ++ toString stream.channels ++
      ", expected " ++ toString DEFAULT_CHANNELS]
  else [])

def verify_audio_format (probe : ProbeResult) (filepath : String) :
    Except Err (List String) :=
  if probe.exitOk then
    match probe.streams with
    | [] => .error (.valueError ("No audio streams found in " ++ filepath))
    | stream :: _ => .ok (format_warnings stream)
  else
    .error (.runtimeError "ffprobe failed")

/-- `MediaGenerator.mix_audio` (lines 239-283): collect the stems that
exist on disk, raise `ValueError` when none do, otherwise run the ffmpeg
mix sized to the stem count, validate the mix file and verify its
format.  Besides the filesystem/exception outcome it reports the ffmpeg
command it constructed (`none` when it raised before building one). -/
def mix_audio (env : Env) (fs : FS) (paths : Paths) :
    (FS × Option Err) × Option (List String) :=
  if mix_input_files fs paths = [] then
    ((fs, some (.valueError "No audio files available for mixing")), none)
  else
    match run_command fs env.mix_run (some paths.wav_mix)
        "Mix audio stems" with
    | (fs', none) =>
        ((fs', match verify_audio_format env.probe_mix paths.wav_mix with
          | .ok _ => none
          | .error e => some e), some (mix_cmd fs paths))
    | (fs', some e) => ((fs', some e), some (mix_cmd fs paths))

/-- The three visualization filter strings of `generate_video`
(lines 315-319). -/
def spectrum_filter : String :=
  "showspectrum=s=" ++ toString VIDEO_WIDTH ++ "x" ++
    toString VIDEO_HEIGHT ++ ":color=rainbow:legend=disabled"

def waveform_filter : String :=
  "showwaves=s=" ++ toString VIDEO_WIDTH ++ "x" ++
    toString VIDEO_HEIGHT ++ ":mode=cline:colors=cyan"

def volumeter_filter : String :=
  "avectorscope=s=" ++ toString VIDEO_WIDTH ++ "x" ++
    toString VIDEO_HEIGHT ++ ":zoom=1.5:draw=line"

/-- The `filters` dict of `generate_video` (lines 315-319). -/
def video_filters : List (String × String) :=
  [("spectrum", spectrum_filter),
   ("waveform", waveform_filter),
   ("volumeter", volumeter_filter)]

/-- `filters.get(video_style, filters["spectrum"])` (line 321). -/
def video_filter_of (video_style : String) : String :=
  (video_filters.lookup video_style).getD spectrum_filter

/-- The ffmpeg command `generate_video` builds (lines 323-334). -/
def video_cmd (paths : Paths) (video_style : String) : List String :=
  ["ffmpeg", "-y",
   "-i", paths.wav_mix,
   "-filter_complex", video_filter_of video_style,
   "-r", toString VIDEO_FPS,
   "-pix_fmt", "yuv420p",
   "-c:v", "libx264",
   "-preset", "medium",
   "-crf", "23",
   "-shortest",
   paths.mp4_video]

/-- `MediaGenerator.verify_video_format` (lines 339-361): probe the
file, raise `ValueError` when no stream has `codec_type = "video"`;
the audio track and all stream parameters are print-only. -/
def verify_video_format (probe : ProbeResult) (filepath : String) :
    Except Err Bool :=
  if probe.exitOk then
    match probe.streams.find? (fun s => s.codec_type == "video") with
    | none => .error (.valueError ("No video stream found in " ++ filepath))
    | some _ => .ok true
  else
    .error (.runtimeError "ffprobe failed")

/-- `MediaGenerator.generate_video` (lines 309-337): raise
`FileNotFoundError` when the mix is absent, otherwise render with the
selected (or default) visualization filter and verify the result.  The
constructed ffmpeg command is reported alongside. -/
def generate_video (env : Env) (fs : FS) (paths : Paths)
    (video_style : String) : (FS × Option Err) × Option (List String) :=
  if FS.existsFile fs paths.wav_mix then
    match run_command fs env.video_run (some paths.mp4_video)
        "Generate video visualizer" with
    | (fs', none) =>
        ((fs', match verify_video_format env.probe_video paths.mp4_video with
          | .ok _ => none
          | .error e => some e), some (video_cmd paths video_style))
    | (fs', some e) => ((fs', some e), some (video_cmd paths video_style))
  else
    ((fs, some (.fileNotFound "Audio mix not found for video generation")),
      none)

/-- `MediaGenerator.save_metadata` (lines 363-380): write the job
descriptor JSON (its exact size is irrelevant downstream; 1 byte stands
for the small serialized dict). -/
def save_metadata (fs : FS) (paths : Paths) : FS :=
  FS.write fs paths.metadata 1

/-- `MediaGenerator.generate_all` (lines 382-444): dependency check,
then melody → render → texture → vocals → mix → video → metadata, in
that order; any exception aborts the pipeline and is re-raised
(`.error`), while the vocals stage's boolean result is ignored. -/
def generate_all (env : Env) (fs : FS) (paths : Paths) (prompt : String)
    (lyrics : String) (language : String) (video_style : String) :
    FS × Except Err Unit :=
  match check_dependencies env with
  | some e => (fs, .error e)
  | none =>
    match generate_melody env fs paths with
    | (fs1, some e) => (fs1, .error e)
    | (fs1, none) =>
      match midi_to_wav env fs1 paths with
      | (fs2, some e) => (fs2, .error e)
      | (fs2, none) =>
        match generate_texture env fs2 paths prompt with
        | (fs3, some e) => (fs3, .error e)
        | (fs3, none) =>
          match generate_vocals env fs3 paths lyrics language with
          | (fs4, _has_vocals) =>
            match mix_audio env fs4 paths with
            | ((fs5, some e), _) => (fs5, .error e)
            | ((fs5, none), _) =>
              match generate_video env fs5 paths video_style with
              | ((fs6, some e), _) => (fs6, .error e)
              | ((fs6, none), _) => (save_metadata fs6 paths, .ok ())

/-! Helper lemmas about the embedding. -/

theorem FS.size?_write_self (fs : FS) (p : String) (n : Nat) :
    FS.size? (FS.write fs p n) p = some n := by
  simp [FS.size?, FS.write, List.lookup]

theorem run_command_valid_write (fs : FS) (r : ToolRun) (f d : String)
    (n : Nat) (h1 : r.found = true) (h2 : r.exitOk = true)
    (h3 : r.written = some n) (h4 : MIN_FILE_SIZE ≤ n) :
    run_command fs r (some f) d = (FS.write fs f n, none) := by
  simp [run_command, h1, h2, h3, validate_file, FS.size?_write_self,
    Nat.not_lt.mpr h4]

theorem validate_file_ok_exists (fs : FS) (f d : String) (b : Bool)
    (h : validate_file fs f d = .ok b) : FS.existsFile fs f = true := by
  unfold validate_file at h
  rcases hs : FS.size? fs f with _ | m
  · rw [hs] at h; simp at h
  · simp [FS.existsFile, hs]

theorem check_dependencies_none_iff (env : Env) :
    check_dependencies env = none ↔
      (env.ffmpeg_ok = true ∧ env.ffprobe_ok = true ∧
       env.fluidsynth_ok = true ∧ env.python3_ok = true) := by
  cases h1 : env.ffmpeg_ok <;> cases h2 : env.ffprobe_ok <;>
    cases h3 : env.fluidsynth_ok <;> cases h4 : env.python3_ok <;>
    simp [check_dependencies, dependencies, Env.toolOk, h1, h2, h3, h4]

theorem check_dependencies_some_shape (env : Env) (e : Err)
    (h : check_dependencies env = some e) : ∃ msg, e = .runtimeError msg := by
  simp only [check_dependencies] at h
  by_cases hemp :
      ((dependencies.filter (fun d => !env.toolOk d.1)).map Prod.fst).isEmpty =
        true
  · rw [if_pos hemp] at h; exact absurd h (by simp)
  · rw [if_neg hemp] at h
    exact ⟨_, (Option.some_inj.mp h).symm⟩

theorem generate_all_success_eq (env : Env)
    (fs0 fs1 fs2 fs3 fs4 fs5 fs6 : FS) (paths : Paths)
    (prompt lyrics language style : String) (hv : Bool)
    (c1 c2 : Option (List String))
    (hdeps : check_dependencies env = none)
    (hm : generate_melody env fs0 paths = (fs1, none))
    (hw : midi_to_wav env fs1 paths = (fs2, none))
    (ht : generate_texture env fs2 paths prompt = (fs3, none))
    (hvoc : generate_vocals env fs3 paths lyrics language = (fs4, hv))
    (hmix : mix_audio env fs4 paths = ((fs5, none), c1))
    (hvid : generate_video env fs5 paths style = ((fs6, none), c2)) :
    generate_all env fs0 paths prompt lyrics language style =
      (save_metadata fs6 paths, .ok ()) := by
  simp [generate_all, hdeps, hm, hw, ht, hvoc, hmix, hvid]

/-- Claim C5: validation is strict at the fixed 10 KB threshold — an
existing file of exactly 9999 bytes is rejected with the too-small
failure, an existing file of at least 10000 bytes is accepted, and a
nonexistent file raises the not-created failure (the existence check
runs before the size check, so absence never reports a size error). -/
theorem C5_validation_boundary (fs : FS) (p d : String) (n : Nat) :
    (FS.size? fs p = some (MIN_FILE_SIZE - 1) →
      validate_file fs p d = .error (.valueError (d ++ " is too small (" ++
        toString (MIN_FILE_SIZE - 1) ++ " bytes): " ++ p))) ∧
    (FS.size? fs p = some n → MIN_FILE_SIZE ≤ n →
      validate_file fs p d = .ok true) ∧
    (FS.size? fs p = none →
      validate_file fs p d = .error (.fileNotFound
        (d ++ " not created: " ++ p))) := by
  refine ⟨fun h => ?_, fun h hn => ?_, fun h => ?_⟩
  · simp [validate_file, h, MIN_FILE_SIZE]
  · simp [validate_file, h, Nat.not_lt.mpr hn]
  · simp [validate_file, h]

theorem C5_validation_boundary_witness :
    validate_file [("a", 9999)] "a" "f" =
      .error (.valueError ("f is too small (" ++
        toString (MIN_FILE_SIZE - 1) ++ " bytes): a")) ∧
    validate_file [("a", 10000)] "a" "f" = .ok true ∧
    validate_file [] "a" "f" = .error (.fileNotFound "f not created: a") :=
  ⟨(C5_validation_boundary [("a", 9999)] "a" "f" 0).1 (by rfl),
   (C5_validation_boundary [("a", 10000)] "a" "f" 10000).2.1 (by rfl)
     (by decide),
   (C5_validation_boundary [] "a" "f" 0).2.2 (by rfl)⟩

/-- The spec's stem count: the number of the three stem audio files
(texture, melody render, vocals) that exist on disk, stated from the
spec's words for comparison with the mixer's collected input list. -/
def spec_stem_count (fs : FS) (paths : Paths) : Nat :=
  (if FS.existsFile fs paths.wav_texture then 1 else 0) +
  (if FS.existsFile fs paths.wav_midi then 1 else 0) +
  (if FS.existsFile fs paths.wav_vocals then 1 else 0)

/-- Claim C1: the mixer's input list has exactly one entry per stem file
existing on disk at mix time, the constructed ffmpeg command carries one
`-i` pair per such stem and an `amix` graph whose arity is that stem
count, and with zero stems `mix_audio` raises the no-stems `ValueError`
without running ffmpeg or touching the filesystem. -/
theorem C1_mix_arity (env : Env) (fs : FS) (paths : Paths) :
    (mix_input_files fs paths).length = spec_stem_count fs paths ∧
    mix_cmd fs paths =
      ["ffmpeg", "-y"] ++
        ((mix_input_files fs paths).map (fun f => ["-i", f])).flatten ++
        ["-filter_complex", mix_filter_complex (spec_stem_count fs paths),
         "-ar", toString DEFAULT_SAMPLE_RATE,
         "-ac", toString DEFAULT_CHANNELS,
         paths.wav_mix] ∧
    (spec_stem_count fs paths = 0 →
      mix_audio env fs paths =
        ((fs, some (.valueError "No audio files available for mixing")),
          none)) := by
  cases h1 : FS.existsFile fs paths.wav_texture <;>
    cases h2 : FS.existsFile fs paths.wav_midi <;>
    cases h3 : FS.existsFile fs paths.wav_vocals <;>
    simp [mix_input_files, spec_stem_count, mix_cmd, mix_audio, h1, h2, h3]

theorem C1_mix_arity_witness :
    mix_audio
      { ffmpeg_ok := true, ffprobe_ok := true, fluidsynth_ok := true,
        python3_ok := true, magenta_run := ⟨true, true, some 200000⟩,
        midiutil_available := true, midiutil_write := 20000,
        fluidsynth_run := ⟨true, true, some 300000⟩,
        riffusion_run := ⟨true, true, some 400000⟩,
        texture_fallback_run := ⟨true, true, some 400000⟩,
        tts_run := ⟨true, true, some 150000⟩,
        mix_run := ⟨true, true, some 500000⟩,
        video_run := ⟨true, true, some 900000⟩,
        probe_mix := ⟨true, [⟨"audio", 44100, 2, "pcm_s16le"⟩]⟩,
        probe_video := ⟨true, [⟨"video", 0, 0, "h264"⟩]⟩ }
      [] (mkPaths "public/assets/demo") =
      (([], some (.valueError "No audio files available for mixing")),
        none) :=
  (C1_mix_arity _ [] (mkPaths "public/assets/demo")).2.2 (by rfl)

/-! Concrete scenario data used by the witnesses. -/

def demoPaths : Paths := mkPaths "public/assets/demo"

/-- An environment in which every tool is installed and every invocation
succeeds, writing an amply sized output. -/
def envAllOk : Env :=
  { ffmpeg_ok := true, ffprobe_ok := true, fluidsynth_ok := true,
    python3_ok := true,
    magenta_run := ⟨true, true, some 200000⟩,
    midiutil_available := true, midiutil_write := 20000,
    fluidsynth_run := ⟨true, true, some 300000⟩,
    riffusion_run := ⟨true, true, some 400000⟩,
    texture_fallback_run := ⟨true, true, some 400000⟩,
    tts_run := ⟨true, true, some 150000⟩,
    mix_run := ⟨true, true, some 500000⟩,
    video_run := ⟨true, true, some 900000⟩,
    probe_mix := ⟨true, [⟨"audio", 44100, 2, "pcm_s16le"⟩]⟩,
    probe_video := ⟨true, [⟨"video", 0, 0, "h264"⟩]⟩ }

/-- A fresh job: only the soundfont resource exists. -/
def fsJob : FS := [(soundfont, 1000000)]

def fs1demo : FS := (demoPaths.midi, 200000) :: fsJob

def fs2demo : FS := (demoPaths.wav_midi, 300000) :: fs1demo

def fs3demo : FS := (demoPaths.wav_texture, 400000) :: fs2demo

def fs5demo : FS := (demoPaths.wav_mix, 500000) :: fs3demo

def fs6demo : FS := (demoPaths.mp4_video, 900000) :: fs5demo

/-- Claim C3: empty or whitespace-only lyrics short-circuit the vocals
stage to the skipped outcome (`False`) without invoking any vocal
generator — the result is identical for every TTS behaviour and the
filesystem is untouched, so no vocals artifact appears — and the
pipeline continues through the mix stage to a successful job instead of
aborting. -/
theorem C3_vocals_short_circuit (env : Env)
    (fs0 fs1 fs2 fs3 fs5 fs6 : FS) (paths : Paths)
    (prompt lyrics language style : String) (c1 c2 : Option (List String))
    (hlyr : strip lyrics = "")
    (hdeps : check_dependencies env = none)
    (hm : generate_melody env fs0 paths = (fs1, none))
    (hw : midi_to_wav env fs1 paths = (fs2, none))
    (ht : generate_texture env fs2 paths prompt = (fs3, none))
    (hmix : mix_audio env fs3 paths = ((fs5, none), c1))
    (hvid : generate_video env fs5 paths style = ((fs6, none), c2)) :
    (∀ r : ToolRun,
      generate_vocals { env with tts_run := r } fs3 paths lyrics language =
        (fs3, false)) ∧
    generate_all env fs0 paths prompt lyrics language style =
      (save_metadata fs6 paths, .ok ()) := by
  have hvoc : ∀ r : ToolRun,
      generate_vocals { env with tts_run := r } fs3 paths lyrics language =
        (fs3, false) := by
    intro r
    simp [generate_vocals, hlyr]
  refine ⟨hvoc, ?_⟩
  refine generate_all_success_eq env fs0 fs1 fs2 fs3 fs3 fs5 fs6 paths
    prompt lyrics language style false c1 c2 hdeps hm hw ht ?_ hmix hvid
  simpa using hvoc env.tts_run

theorem C3_vocals_short_circuit_witness :
    (∀ r : ToolRun,
      generate_vocals { envAllOk with tts_run := r } fs3demo demoPaths
        " " "English" = (fs3demo, false)) ∧
    generate_all envAllOk fsJob demoPaths "dreamy synthwave" " "
        "English" "spectrum" =
      (save_metadata fs6demo demoPaths, .ok ()) :=
  C3_vocals_short_circuit envAllOk fsJob fs1demo fs2demo fs3demo fs5demo
    fs6demo demoPaths "dreamy synthwave" " " "English" "spectrum"
    (some (mix_cmd fs3demo demoPaths)) (some (video_cmd demoPaths "spectrum"))
    (by rfl) (by rfl) (by rfl) (by rfl) (by rfl) (by rfl) (by rfl)

/-- Claim C4: with non-empty lyrics, when the only vocal-generation
strategy fails without leaving an output file, the vocals stage degrades
to absence (`False`, filesystem untouched), the mixer then sees exactly
the 2 remaining stems, and the pipeline still completes successfully. -/
theorem C4_vocals_degrade (env : Env) (fs0 fs1 fs2 fs3 fs5 fs6 : FS)
    (paths : Paths) (prompt lyrics language style : String)
    (c1 c2 : Option (List String))
    (hlyr1 : ¬ lyrics = "") (hlyr2 : ¬ strip lyrics = "")
    (htts : env.tts_run.found = false ∨ env.tts_run.exitOk = false)
    (httsw : env.tts_run.written = none)
    (hdeps : check_dependencies env = none)
    (hm : generate_melody env fs0 paths = (fs1, none))
    (hw : midi_to_wav env fs1 paths = (fs2, none))
    (ht : generate_texture env fs2 paths prompt = (fs3, none))
    (htex : FS.existsFile fs3 paths.wav_texture = true)
    (hmid : FS.existsFile fs3 paths.wav_midi = true)
    (hvocf : FS.existsFile fs3 paths.wav_vocals = false)
    (hmix : mix_audio env fs3 paths = ((fs5, none), c1))
    (hvid : generate_video env fs5 paths style = ((fs6, none), c2)) :
    generate_vocals env fs3 paths lyrics language = (fs3, false) ∧
    (mix_input_files fs3 paths).length = 2 ∧
    generate_all env fs0 paths prompt lyrics language style =
      (save_metadata fs6 paths, .ok ()) := by
  have hvoc : generate_vocals env fs3 paths lyrics language =
      (fs3, false) := by
    rcases htts with h | h
    · simp [generate_vocals, hlyr1, hlyr2, run_command, h]
    · cases hfound : env.tts_run.found
      · simp [generate_vocals, hlyr1, hlyr2, run_command, hfound]
      · simp [generate_vocals, hlyr1, hlyr2, run_command, hfound, h, httsw]
  refine ⟨hvoc, ?_,
    generate_all_success_eq env fs0 fs1 fs2 fs3 fs3 fs5 fs6 paths prompt
      lyrics language style false c1 c2 hdeps hm hw ht hvoc hmix hvid⟩
  simp [mix_input_files, htex, hmid, hvocf]

/-- The all-success environment, but the TTS binary is not installed
(`FileNotFoundError` from `subprocess.run`, leaving no file). -/
def envVocalsFail : Env := { envAllOk with tts_run := ⟨true, false, none⟩ }

theorem C4_vocals_degrade_witness :
    generate_vocals envVocalsFail fs3demo demoPaths
      "Riding through the stars" "English" = (fs3demo, false) ∧
    (mix_input_files fs3demo demoPaths).length = 2 ∧
    generate_all envVocalsFail fsJob demoPaths "epic orchestral"
        "Riding through the stars" "English" "spectrum" =
      (save_metadata fs6demo demoPaths, .ok ()) :=
  C4_vocals_degrade envVocalsFail fsJob fs1demo fs2demo fs3demo fs5demo
    fs6demo demoPaths "epic orchestral" "Riding through the stars"
    "English" "spectrum"
    (some (mix_cmd fs3demo demoPaths)) (some (video_cmd demoPaths "spectrum"))
    (by decide) (by decide) (Or.inr (by rfl)) (by rfl) (by rfl) (by rfl)
    (by rfl) (by rfl) (by rfl) (by rfl) (by rfl) (by rfl) (by rfl)

/-- A healthy filesystem, but neither the Magenta model nor the MIDIUtil
package is installed. -/
def envChainExhaust : Env :=
  { envAllOk with magenta_run := ⟨false, false, none⟩,
                  midiutil_available := false }

/-- Claim C2 counterexample: the melody chain's last strategy is not
dependency-free — it needs the MIDIUtil package.  With Magenta
unavailable and MIDIUtil not installed, on a perfectly healthy
filesystem, the melody provider chain exhausts with an `ImportError`
instead of returning a validated artifact, and the whole pipeline
aborts. -/
theorem C2_chain_exhausts_counterexample :
    generate_melody envChainExhaust fsJob demoPaths =
      (fsJob, some (.importError
        "MIDIUtil not installed. Install with: pip install MIDIUtil")) ∧
    generate_all envChainExhaust fsJob demoPaths "dreamy synthwave" ""
        "English" "spectrum" =
      (fsJob, .error (.importError
        "MIDIUtil not installed. Install with: pip install MIDIUtil")) :=
  ⟨by rfl, by rfl⟩

/-- Claim C2 (amended): each chain's last strategy still has a
dependency — the MIDIUtil package for melody, a working ffmpeg
invocation for texture.  When that dependency is met and the fallback's
output passes validation, the chain never exhausts: the melody chain
succeeds whenever MIDIUtil is importable and writes a file of at least
the minimum size, and the texture chain succeeds whenever the ffmpeg
fallback synthesis runs and writes a valid file. -/
theorem C2_chains_with_fallback_dependency (env : Env) (fs : FS)
    (paths : Paths) (prompt : String) (n : Nat)
    (hmu : env.midiutil_available = true)
    (hmw : MIN_FILE_SIZE ≤ env.midiutil_write)
    (htf : env.texture_fallback_run.found = true)
    (hte : env.texture_fallback_run.exitOk = true)
    (htw : env.texture_fallback_run.written = some n)
    (htn : MIN_FILE_SIZE ≤ n) :
    (∃ fs', generate_melody env fs paths = (fs', none)) ∧
    (∃ fs', generate_texture env fs paths prompt = (fs', none)) := by
  constructor
  · rcases hmag : run_command fs env.magenta_run (some paths.midi)
        "Generate melody with Magenta" with ⟨fs', e⟩
    cases e with
    | none => exact ⟨fs', by simp [generate_melody, hmag]⟩
    | some e =>
        refine ⟨FS.write fs' paths.midi env.midiutil_write, ?_⟩
        simp [generate_melody, hmag, generate_fallback_midi, hmu,
          validate_file, FS.size?_write_self, Nat.not_lt.mpr hmw]
  · rcases hrif : run_command fs env.riffusion_run (some paths.wav_texture)
        "Generate texture with Riffusion" with ⟨fs', e⟩
    cases e with
    | none => exact ⟨fs', by simp [generate_texture, hrif]⟩
    | some e =>
        refine ⟨FS.write fs' paths.wav_texture n, ?_⟩
        simp [generate_texture, hrif, generate_fallback_texture,
          run_command_valid_write fs' env.texture_fallback_run
            paths.wav_texture "Generate fallback texture" n htf hte htw htn]

/-- Both primary generators fail, both fallbacks available. -/
def envFallbacksOnly : Env :=
  { envAllOk with magenta_run := ⟨false, false, none⟩,
                  riffusion_run := ⟨false, false, none⟩ }

theorem C2_chains_with_fallback_dependency_witness :
    (∃ fs', generate_melody envFallbacksOnly fsJob demoPaths =
      (fs', none)) ∧
    (∃ fs', generate_texture envFallbacksOnly fsJob demoPaths
      "dreamy synthwave" = (fs', none)) :=
  C2_chains_with_fallback_dependency envFallbacksOnly fsJob demoPaths
    "dreamy synthwave" 400000 (by rfl) (by decide) (by rfl) (by rfl)
    (by rfl) (by decide)

/-- Claim C6: when the probed first stream of a successfully validated
mix mismatches the expected 44100 Hz / 2 channels, `verify_audio_format`
only records a non-empty warning list and returns success; the mix
attempt does not fail, the mix artifact stays on disk, and the pipeline
proceeds to video rendering and completes. -/
theorem C6_format_mismatch_warning (env : Env)
    (fs0 fs1 fs2 fs3 fs4 fs6 : FS) (paths : Paths)
    (prompt lyrics language style : String) (hv : Bool)
    (c2 : Option (List String)) (s : FFStream) (rest : List FFStream)
    (m : Nat)
    (hpe : env.probe_mix.exitOk = true)
    (hps : env.probe_mix.streams = s :: rest)
    (hmis : s.sample_rate ≠ DEFAULT_SAMPLE_RATE ∨
            s.channels ≠ DEFAULT_CHANNELS)
    (hdeps : check_dependencies env = none)
    (hm : generate_melody env fs0 paths = (fs1, none))
    (hw : midi_to_wav env fs1 paths = (fs2, none))
    (ht : generate_texture env fs2 paths prompt = (fs3, none))
    (hvoc : generate_vocals env fs3 paths lyrics language = (fs4, hv))
    (hne : mix_input_files fs4 paths ≠ [])
    (hmf : env.mix_run.found = true) (hme : env.mix_run.exitOk = true)
    (hmw : env.mix_run.written = some m) (hmn : MIN_FILE_SIZE ≤ m)
    (hvid : generate_video env (FS.write fs4 paths.wav_mix m) paths style =
      ((fs6, none), c2)) :
    (verify_audio_format env.probe_mix paths.wav_mix =
      .ok (format_warnings s) ∧ format_warnings s ≠ []) ∧
    mix_audio env fs4 paths =
      ((FS.write fs4 paths.wav_mix m, none), some (mix_cmd fs4 paths)) ∧
    FS.existsFile (FS.write fs4 paths.wav_mix m) paths.wav_mix = true ∧
    generate_all env fs0 paths prompt lyrics language style =
      (save_metadata fs6 paths, .ok ()) := by
  have hok : verify_audio_format env.probe_mix paths.wav_mix =
      .ok (format_warnings s) := by
    simp [verify_audio_format, hpe, hps]
  have hwarn : format_warnings s ≠ [] := by
    rcases hmis with h | h
    · by_cases hc : s.channels = DEFAULT_CHANNELS <;>
        simp [format_warnings, h, hc]
    · by_cases hr : s.sample_rate = DEFAULT_SAMPLE_RATE <;>
        simp [format_warnings, h, hr]
  have hrun := run_command_valid_write fs4 env.mix_run paths.wav_mix
    "Mix audio stems" m hmf hme hmw hmn
  have hmix : mix_audio env fs4 paths =
      ((FS.write fs4 paths.wav_mix m, none), some (mix_cmd fs4 paths)) := by
    simp [mix_audio, hne, hrun, hok]
  refine ⟨⟨hok, hwarn⟩, hmix, ?_, ?_⟩
  · simp [FS.existsFile, FS.size?_write_self]
  · exact generate_all_success_eq env fs0 fs1 fs2 fs3 fs4
      (FS.write fs4 paths.wav_mix m) fs6 paths prompt lyrics language
      style hv (some (mix_cmd fs4 paths)) c2 hdeps hm hw ht hvoc hmix hvid

/-- All tools fine, but the produced mix decodes at 48000 Hz instead of
the expected 44100 Hz. -/
def envMixMismatch : Env :=
  { envAllOk with probe_mix := ⟨true, [⟨"audio", 48000, 2, "pcm_s16le"⟩]⟩ }

theorem C6_format_mismatch_warning_witness :
    (verify_audio_format envMixMismatch.probe_mix demoPaths.wav_mix =
      .ok (format_warnings ⟨"audio", 48000, 2, "pcm_s16le"⟩) ∧
      format_warnings (⟨"audio", 48000, 2, "pcm_s16le"⟩ : FFStream) ≠ []) ∧
    mix_audio envMixMismatch fs3demo demoPaths =
      ((FS.write fs3demo demoPaths.wav_mix 500000, none),
        some (mix_cmd fs3demo demoPaths)) ∧
    FS.existsFile (FS.write fs3demo demoPaths.wav_mix 500000)
      demoPaths.wav_mix = true ∧
    generate_all envMixMismatch fsJob demoPaths "dreamy synthwave" " "
        "English" "spectrum" =
      (save_metadata fs6demo demoPaths, .ok ()) :=
  C6_format_mismatch_warning envMixMismatch fsJob fs1demo fs2demo fs3demo
    fs3demo fs6demo demoPaths "dreamy synthwave" " " "English" "spectrum"
    false (some (video_cmd demoPaths "spectrum"))
    ⟨"audio", 48000, 2, "pcm_s16le"⟩ [] 500000
    (by rfl) (by rfl) (Or.inl (by decide)) (by rfl) (by rfl) (by rfl)
    (by rfl) (by rfl) (by decide) (by rfl) (by rfl) (by rfl) (by decide)
    (by rfl)

/-- Claim C7: if the soundfont resource does not exist when the
melody-to-audio render stage runs, `midi_to_wav` fails with the
missing-resource `FileNotFoundError`, the pipeline returns failure at
that stage leaving the filesystem exactly as the melody stage left it,
and in that final state neither a mix nor a video artifact exists. -/
theorem C7_soundfont_missing (env : Env) (fs0 fs1 : FS) (paths : Paths)
    (prompt lyrics language style : String)
    (hdeps : check_dependencies env = none)
    (hm : generate_melody env fs0 paths = (fs1, none))
    (hsf : FS.existsFile fs1 soundfont = false)
    (hmixa : FS.existsFile fs1 paths.wav_mix = false)
    (hvida : FS.existsFile fs1 paths.mp4_video = false) :
    midi_to_wav env fs1 paths =
      (fs1, some (.fileNotFound ("Soundfont missing: " ++ soundfont))) ∧
    generate_all env fs0 paths prompt lyrics language style =
      (fs1, .error (.fileNotFound ("Soundfont missing: " ++ soundfont))) ∧
    FS.existsFile fs1 paths.wav_mix = false ∧
    FS.existsFile fs1 paths.mp4_video = false := by
  have hmw : midi_to_wav env fs1 paths =
      (fs1, some (.fileNotFound ("Soundfont missing: " ++ soundfont))) := by
    simp [midi_to_wav, hsf]
  exact ⟨hmw, by simp [generate_all, hdeps, hm, hmw], hmixa, hvida⟩

theorem C7_soundfont_missing_witness :
    midi_to_wav envAllOk [(demoPaths.midi, 200000)] demoPaths =
      ([(demoPaths.midi, 200000)],
        some (.fileNotFound ("Soundfont missing: " ++ soundfont))) ∧
    generate_all envAllOk [] demoPaths "dreamy synthwave" "" "English"
        "spectrum" =
      ([(demoPaths.midi, 200000)],
        .error (.fileNotFound ("Soundfont missing: " ++ soundfont))) ∧
    FS.existsFile [(demoPaths.midi, 200000)] demoPaths.wav_mix = false ∧
    FS.existsFile [(demoPaths.midi, 200000)] demoPaths.mp4_video = false :=
  C7_soundfont_missing envAllOk [] [(demoPaths.midi, 200000)] demoPaths
    "dreamy synthwave" "" "English" "spectrum"
    (by rfl) (by rfl) (by rfl) (by rfl) (by rfl)

/-- The all-success environment, except that the TTS tool exits zero but
writes only an 8000-byte vocals file, so the attempt fails validation
(below the 10 KB threshold) and leaves its partial output on disk. -/
def envBrokenTTS : Env := { envAllOk with tts_run := ⟨true, true, some 8000⟩ }

/-- Claim C8, evaluated at the failing input: a vocal-generation attempt
that fails validation leaves its partial 8000-byte `vocals.wav` on disk
(`generate_vocals` returns `False` but deletes nothing), and the mixer
then counts that leftover file as a third stem instead of treating it as
absent. -/
theorem C8_partial_vocals_counted :
    generate_vocals envBrokenTTS fs3demo demoPaths "la la" "English" =
      ((demoPaths.wav_vocals, 8000) :: fs3demo, false) ∧
    mix_input_files ((demoPaths.wav_vocals, 8000) :: fs3demo) demoPaths =
      [demoPaths.wav_texture, demoPaths.wav_midi, demoPaths.wav_vocals] ∧
    (mix_input_files ((demoPaths.wav_vocals, 8000) :: fs3demo)
      demoPaths).length = 3 :=
  ⟨by rfl, by rfl, by rfl⟩

/-- Claim C9: every video style outside {spectrum, waveform, volumeter}
selects the spectrum visualization filter, builds the same ffmpeg
command as the default style, and makes `generate_video` behave exactly
as if "spectrum" had been passed — an unknown style is never rejected
and is indistinguishable from the default. -/
theorem C9_unknown_style_default (s : String)
    (h1 : s ≠ "spectrum") (h2 : s ≠ "waveform") (h3 : s ≠ "volumeter") :
    video_filter_of s = spectrum_filter ∧
    (∀ paths : Paths, video_cmd paths s = video_cmd paths "spectrum") ∧
    (∀ (env : Env) (fs : FS) (paths : Paths),
      generate_video env fs paths s = generate_video env fs paths
        "spectrum") := by
  have b1 : (s == "spectrum") = false := by simp [h1]
  have b2 : (s == "waveform") = false := by simp [h2]
  have b3 : (s == "volumeter") = false := by simp [h3]
  have hf : video_filter_of s = spectrum_filter := by
    simp [video_filter_of, video_filters, List.lookup, b1, b2, b3]
  have hsp : video_filter_of "spectrum" = spectrum_filter := by rfl
  have hcmd : ∀ paths : Paths,
      video_cmd paths s = video_cmd paths "spectrum" := by
    intro paths
    simp [video_cmd, hf, hsp]
  refine ⟨hf, hcmd, fun env fs paths => ?_⟩
  simp only [generate_video, hcmd]

theorem C9_unknown_style_default_witness :
    video_filter_of "disco" = spectrum_filter ∧
    video_cmd demoPaths "disco" = video_cmd demoPaths "spectrum" ∧
    generate_video envAllOk fs5demo demoPaths "disco" =
      generate_video envAllOk fs5demo demoPaths "spectrum" :=
  ⟨(C9_unknown_style_default "disco" (by decide) (by decide)
      (by decide)).1,
   (C9_unknown_style_default "disco" (by decide) (by decide)
      (by decide)).2.1 demoPaths,
   (C9_unknown_style_default "disco" (by decide) (by decide)
      (by decide)).2.2 envAllOk fs5demo demoPaths⟩

/-- Claim C10: when any of ffmpeg, ffprobe, fluidsynth or python3 is
unavailable, the upfront dependency check raises the
missing-dependencies `RuntimeError` and `generate_all` returns that
failure with the filesystem untouched — no artifact of any stage is
produced, whatever the per-stage tool behaviours are. -/
theorem C10_missing_dependency (env : Env) (fs : FS) (paths : Paths)
    (prompt lyrics language style : String)
    (h : env.ffmpeg_ok = false ∨ env.ffprobe_ok = false ∨
         env.fluidsynth_ok = false ∨ env.python3_ok = false) :
    ∃ msg, check_dependencies env = some (.runtimeError msg) ∧
      generate_all env fs paths prompt lyrics language style =
        (fs, .error (.runtimeError msg)) := by
  have hne : check_dependencies env ≠ none := by
    intro hc
    have h4 := (check_dependencies_none_iff env).mp hc
    rcases h with h | h | h | h <;> simp [h] at h4
  rcases hcd : check_dependencies env with _ | e
  · exact absurd hcd hne
  · obtain ⟨msg, rfl⟩ := check_dependencies_some_shape env e hcd
    exact ⟨msg, rfl, by simp [generate_all, hcd]⟩

/-- All tools fine except ffmpeg, which is not installed. -/
def envNoFfmpeg : Env := { envAllOk with ffmpeg_ok := false }

theorem C10_missing_dependency_witness :
    ∃ msg, check_dependencies envNoFfmpeg = some (.runtimeError msg) ∧
      generate_all envNoFfmpeg fsJob demoPaths "dreamy synthwave" ""
        "English" "spectrum" = (fsJob, .error (.runtimeError msg)) :=
  C10_missing_dependency envNoFfmpeg fsJob demoPaths "dreamy synthwave"
    "" "English" "spectrum" (Or.inl (by rfl))
